import Mathlib

/-!
Verification of the nodaddy migration core.

A shallow embedding of the nodaddy domain-migration tool (GoDaddy →
Cloudflare) together with proofs about its DNS record translator, preflight
evaluator, retry layer, migration store and transfer engine.

Conventions used throughout:
* TypeScript strings are Lean `String`s; `str.includes(sub)` is `jsIncludes`.
* Machine numbers that the code only ever uses as integers (TTLs, ports,
  priorities, HTTP status codes) are `Nat`; timestamps are `Int`
  (epoch milliseconds) and day counts are `ℚ` because the source divides
  millisecond differences by `86_400_000` without truncating.
* `async` functions performing HTTP calls are modelled by an explicit
  environment (`Env`) that fixes the outcome of every outbound call; the
  functions then become pure and return the list of observable events
  (migration-store writes and progress reports) next to their result.
* Fallible code returns `Except JsError α`.
-/

/-! ## JavaScript string primitives -/

/-- One step of substring matching: does `sub` occur at the start of `hay`?
(Character-list version of `String.startsWith`.) -/
def matchesAt : List Char → List Char → Bool
  | [], _ => true
  | _ :: _, [] => false
  | a :: as, b :: bs => a = b && matchesAt as bs

/-- Does `sub` occur contiguously anywhere in `hay`? -/
def subSearch (hay sub : List Char) : Bool :=
  match hay with
  | [] => matchesAt sub []
  | _ :: t => matchesAt sub hay || subSearch t sub

/-- JavaScript `s.includes(sub)`: `sub` occurs as a contiguous substring. -/
def jsIncludes (s sub : String) : Bool :=
  subSearch s.data sub.data

/-- JavaScript `s.endsWith(suffix)`. -/
def jsEndsWith (s suffix : String) : Bool :=
  matchesAt suffix.data.reverse s.data.reverse

/-- JavaScript `s.split(sep)` for a one-character separator. -/
def splitChar (sep : Char) : List Char → List String
  | [] => [""]
  | c :: rest =>
    let r := splitChar sep rest
    if c = sep then "" :: r
    else
      match r with
      | [] => [String.mk [c]]
      | s :: ss => String.mk (c :: s.data) :: ss

/-- JavaScript `parts.join(sep)` for a one-character separator. -/
def joinChar (sep : Char) : List String → String
  | [] => ""
  | [s] => s
  | s :: rest => s ++ String.mk [sep] ++ joinChar sep rest

/-! ## Data model: DNS records (src/types/godaddy.ts, src/types/cloudflare.ts) -/

/-- A GoDaddy DNS record (`GoDaddyDnsRecordSchema`): flat fields, optional
SRV extras. -/
structure GoDaddyDnsRecord where
  type : String
  name : String
  data : String
  ttl : Nat
  priority : Option Nat := none
  weight : Option Nat := none
  port : Option Nat := none
  service : Option String := none
  protocol : Option String := none
deriving Repr, DecidableEq

/-- The structured `data` sub-object Cloudflare uses for SRV records. -/
structure SrvData where
  priority : Nat
  weight : Nat
  port : Nat
  target : String
  service : String
  proto : String
  name : String
deriving Repr, DecidableEq

/-- The structured `data` sub-object Cloudflare uses for CAA records. -/
structure CaaData where
  flags : Nat
  tag : String
  value : String
deriving Repr, DecidableEq

/-- The typed contents of a Cloudflare record's optional `data` field. -/
inductive CfData where
  | srv (d : SrvData)
  | caa (d : CaaData)
deriving Repr, DecidableEq

/-- A Cloudflare DNS record as built by the translator
(`Omit<CloudflareDnsRecord, 'id'>`). -/
structure CloudflareDnsRecord where
  type : String
  name : String
  content : String
  ttl : Nat
  proxied : Option Bool := none
  priority : Option Nat := none
  data : Option CfData := none
deriving Repr, DecidableEq

/-! ## DNS Record Translator (src/services/dns-migrator.ts) -/

/-- `SKIP_TYPES`: record types skipped during migration. -/
def SKIP_TYPES : List String := ["SOA"]

/-- `isGoDaddyParking`: GoDaddy-specific parking/forwarding records. -/
def isGoDaddyParking (record : GoDaddyDnsRecord) : Bool :=
  if record.type = "A" && record.name = "@" && record.data = "Parked" then
    true
  else if record.type = "CNAME" &&
      (jsEndsWith record.data ".secureserver.net" ||
        jsEndsWith record.data ".domaincontrol.com") then
    true
  else
    false

/-- JavaScript `\d` (ASCII decimal digit). -/
def isJsDigit (c : Char) : Bool := '0' ≤ c && c ≤ '9'

/-- JavaScript `\s` restricted to the ASCII whitespace characters
(space, tab, newline, carriage return, vertical tab, form feed). -/
def isJsWs (c : Char) : Bool :=
  c = ' ' || c = '\t' || c = '\n' || c = '\x0d' || c = '\x0b' || c = '\x0c'

/-- JavaScript `.` (without the `s` flag): any character except a line
terminator. -/
def isJsDot (c : Char) : Bool := !(c = '\n' || c = '\x0d')

/-- Digit list to the number JavaScript's `parseInt(s, 10)` returns on it. -/
def digitsToNat (ds : List Char) : Nat :=
  ds.foldl (fun acc c => acc * 10 + (c.toNat - '0'.toNat)) 0

/-- The tail `\s+(.+)$` of the CAA pattern, matched against the remaining
characters with the regex engine's greedy-then-backtrack semantics:
the maximal whitespace run must be non-empty, and `(.+)$` must cover the
entire remainder (giving whitespace back to `(.+)` only when the remainder
would otherwise be empty). -/
def caaTail (rest : List Char) : Option (List Char) :=
  let w := rest.takeWhile isJsWs
  let r := rest.dropWhile isJsWs
  if w.isEmpty then none
  else if !r.isEmpty then
    if r.all isJsDot then some r else none
  else
    -- whole remainder is whitespace: backtrack one character into `(.+)`
    match w.getLast? with
    | some c => if w.length ≥ 2 && isJsDot c then some [c] else none
    | none => none

/-- The regex `/^(\d+)\s+(\S+)\s+(.+)$/` of the CAA branch of `mapRecord`,
returning the three capture groups. -/
def parseCaa (s : String) : Option (Nat × String × String) :=
  let cs := s.data
  let digits := cs.takeWhile isJsDigit
  if digits.isEmpty then none
  else
    let rest1 := cs.dropWhile isJsDigit
    let ws1 := rest1.takeWhile isJsWs
    if ws1.isEmpty then none
    else
      let rest2 := rest1.dropWhile isJsWs
      let tag := rest2.takeWhile (fun c => !isJsWs c)
      if tag.isEmpty then none
      else
        let rest3 := rest2.dropWhile (fun c => !isJsWs c)
        match caaTail rest3 with
        | some value =>
            some (digitsToNat digits, String.mk tag, String.mk value)
        | none => none

/-- `mapRecord`: translate one GoDaddy record to Cloudflare shape, or drop
it (`null`). -/
def mapRecord (record : GoDaddyDnsRecord) (domain : String)
    (proxied : Bool) : Option CloudflareDnsRecord :=
  -- Convert GoDaddy "@" to full domain name
  let name := if record.name = "@" then domain else record.name ++ "." ++ domain
  -- Cloudflare TTL: 1 = automatic
  let ttl := if record.ttl < 120 then 1 else record.ttl
  if record.type = "A" || record.type = "AAAA" then
    some { type := record.type, name, content := record.data, ttl,
           proxied := some proxied }
  else if record.type = "CNAME" then
    some { type := "CNAME", name,
           content := if record.data = "@" then domain else record.data,
           ttl, proxied := some proxied }
  else if record.type = "MX" then
    some { type := "MX", name, content := record.data, ttl,
           priority := some (record.priority.getD 10) }
  else if record.type = "TXT" then
    some { type := "TXT", name, content := record.data, ttl }
  else if record.type = "SRV" then
    -- GoDaddy has flat SRV fields; Cloudflare uses a nested data object
    let srvName :=
      match record.service, record.protocol with
      | some service, some protocol => service ++ "." ++ protocol ++ "." ++ name
      | _, _ => name
    some { type := "SRV", name := srvName,
           content := toString (record.priority.getD 0) ++ " " ++
             toString (record.weight.getD 0) ++ " " ++
             toString (record.port.getD 0) ++ " " ++ record.data,
           ttl,
           data := some (.srv {
             priority := record.priority.getD 0,
             weight := record.weight.getD 0,
             port := record.port.getD 0,
             target := record.data,
             service := record.service.getD "",
             proto := record.protocol.getD "",
             name := name }) }
  else if record.type = "CAA" then
    -- GoDaddy CAA data format: "flags tag value"
    match parseCaa record.data with
    | none => none
    | some (flags, tag, value) =>
        some { type := "CAA", name, content := record.data, ttl,
               data := some (.caa { flags, tag, value }) }
  else if record.type = "NS" then
    -- Non-apex NS records (apex already filtered by the caller)
    some { type := "NS", name, content := record.data, ttl }
  else
    -- Unknown record type — skip
    none

/-- `mapGoDaddyToCloudflare`: translate a GoDaddy record set, skipping SOA,
apex NS and parking records. -/
def mapGoDaddyToCloudflare (records : List GoDaddyDnsRecord)
    (domain : String) (proxied : Bool := false) : List CloudflareDnsRecord :=
  records.filterMap (fun record =>
    if SKIP_TYPES.contains record.type then none
    else if record.type = "NS" && record.name = "@" then none
    else if isGoDaddyParking record then none
    else mapRecord record domain proxied)

/-! ## Claim C1: the translator never emits SOA or apex NS -/

/-- A string extended on the left by at least one character is distinct
from the original. -/
theorem append_dot_ne (s t : String) : s ++ "." ++ t ≠ t := by
  intro h
  have hl := congrArg String.length h
  rw [String.length_append, String.length_append] at hl
  have h1 : ".".length = 1 := rfl
  omega

/-- The mixed record set of the end-to-end scenario: 2 plain A records,
1 CNAME targeting a secureserver host, 1 NS at apex, 1 SOA, and 1 apex
parking A record. -/
def mixedRecordSet : List GoDaddyDnsRecord :=
  [{ type := "A", name := "@", data := "1.2.3.4", ttl := 600 },
   { type := "A", name := "www", data := "1.2.3.5", ttl := 60 },
   { type := "CNAME", name := "mail", data := "x.secureserver.net", ttl := 3600 },
   { type := "NS", name := "@", data := "ns1.godaddy.com", ttl := 3600 },
   { type := "SOA", name := "@", data := "primary hostmaster", ttl := 3600 },
   { type := "A", name := "@", data := "Parked", ttl := 600 }]

/-- C1: for every input record list, `mapGoDaddyToCloudflare` never emits an
SOA record and never emits an NS record named exactly the bare domain; and
on the mixed scenario input (2 A, 1 secureserver CNAME, 1 apex NS, 1 SOA,
1 apex parking A) the output is exactly the 2 translated A records. -/
theorem c1_translator_never_soa_apex_ns :
    (∀ (records : List GoDaddyDnsRecord) (domain : String) (proxied : Bool),
      ∀ r ∈ mapGoDaddyToCloudflare records domain proxied,
        r.type ≠ "SOA" ∧ (r.type = "NS" → r.name ≠ domain)) ∧
    mapGoDaddyToCloudflare mixedRecordSet "example.com" false =
      [{ type := "A", name := "example.com", content := "1.2.3.4", ttl := 600,
         proxied := some false },
       { type := "A", name := "www.example.com", content := "1.2.3.5", ttl := 1,
         proxied := some false }] := by
  constructor
  · intro records domain proxied r hr
    rw [mapGoDaddyToCloudflare, List.mem_filterMap] at hr
    obtain ⟨a, _, ha⟩ := hr
    split at ha
    · exact absurd ha (by simp)
    split at ha
    · exact absurd ha (by simp)
    split at ha
    · exact absurd ha (by simp)
    rename_i hskip hns hpark
    rw [mapRecord] at ha
    split at ha
    · -- A / AAAA
      rename_i hA
      obtain rfl : _ = r := Option.some.inj ha
      simp only [Bool.or_eq_true, decide_eq_true_eq] at hA
      rcases hA with h | h <;> refine ⟨?_, ?_⟩ <;> simp [h]
    split at ha
    · -- CNAME
      obtain rfl : _ = r := Option.some.inj ha
      simp
    split at ha
    · -- MX
      obtain rfl : _ = r := Option.some.inj ha
      simp
    split at ha
    · -- TXT
      obtain rfl : _ = r := Option.some.inj ha
      simp
    split at ha
    · -- SRV
      obtain rfl : _ = r := Option.some.inj ha
      simp
    split at ha
    · -- CAA
      rename_i hCaa
      rcases hp : parseCaa a.data with _ | ⟨flags, tag, value⟩ <;>
        rw [hp] at ha
      · exact absurd ha (by simp)
      · obtain rfl : _ = r := Option.some.inj ha
        simp
    split at ha
    · -- NS: the caller has already excluded the apex, so the emitted name
      -- is `a.name ++ "." ++ domain`, which cannot equal the bare domain.
      rename_i hNS
      obtain rfl : _ = r := Option.some.inj ha
      refine ⟨by simp, fun _ => ?_⟩
      have hname : a.name ≠ "@" := by
        intro h
        exact hns (by simp [hNS, h])
      simp only [if_neg hname]
      exact append_dot_ne a.name domain
    · exact absurd ha (by simp)
  · decide

/-- Witness for C1: the universal part applied to the first record the
translator emits on the mixed scenario input. -/
theorem c1_witness :
    ({ type := "A", name := "example.com", content := "1.2.3.4", ttl := 600,
       proxied := some false } : CloudflareDnsRecord).type ≠ "SOA" ∧
    (({ type := "A", name := "example.com", content := "1.2.3.4", ttl := 600,
        proxied := some false } : CloudflareDnsRecord).type = "NS" →
      ({ type := "A", name := "example.com", content := "1.2.3.4", ttl := 600,
         proxied := some false } : CloudflareDnsRecord).name ≠ "example.com") :=
  c1_translator_never_soa_apex_ns.1 mixedRecordSet "example.com" false _ (by decide)

/-! ## Claim C7: CAA parsing — strict pattern, malformed records dropped -/

/-- C7: inserting a CAA record into any record set contributes exactly its
parsed translation when the flat `"flags tag value"` string matches the
strict pattern, and contributes nothing (leaving the rest of the output
unchanged) when it does not; `"0 issue letsencrypt.org"` parses to
flags 0, tag `issue`, value `letsencrypt.org`, and `"malformed"` fails. -/
theorem c7_caa_strict_parse :
    (∀ (rs₁ rs₂ : List GoDaddyDnsRecord) (r : GoDaddyDnsRecord)
        (domain : String) (proxied : Bool),
      r.type = "CAA" →
      mapGoDaddyToCloudflare (rs₁ ++ r :: rs₂) domain proxied =
        mapGoDaddyToCloudflare rs₁ domain proxied ++
        (match parseCaa r.data with
         | some (flags, tag, value) =>
             [{ type := "CAA",
                name := if r.name = "@" then domain
                        else r.name ++ "." ++ domain,
                content := r.data,
                ttl := if r.ttl < 120 then 1 else r.ttl,
                data := some (.caa { flags, tag, value }) }]
         | none => []) ++
        mapGoDaddyToCloudflare rs₂ domain proxied) ∧
    parseCaa "0 issue letsencrypt.org" = some (0, "issue", "letsencrypt.org") ∧
    parseCaa "malformed" = none := by
  refine ⟨?_, by decide, by decide⟩
  intro rs₁ rs₂ r domain proxied hty
  rw [mapGoDaddyToCloudflare, mapGoDaddyToCloudflare, mapGoDaddyToCloudflare,
    List.filterMap_append, List.filterMap_cons]
  have hskip : SKIP_TYPES.contains r.type = false := by
    rw [hty]; decide
  have hns : (r.type = "NS" && r.name = "@") = false := by
    rw [hty]; simp
  have hpark : isGoDaddyParking r = false := by
    rw [isGoDaddyParking]
    rw [if_neg (by rw [hty]; simp), if_neg (by rw [hty]; simp)]
  rw [hskip, hns, hpark]
  simp only [Bool.false_eq_true, if_false]
  rw [mapRecord, hty]
  simp only [String.reduceEq, Bool.or_false, Bool.false_or, reduceIte]
  rcases hp : parseCaa r.data with _ | ⟨flags, tag, value⟩ <;>
    simp [List.append_assoc]

/-! ## Preflight Evaluator (src/services/transfer-engine.ts) -/

/-- A GoDaddy domain record (`GoDaddyDomainSchema`). The ISO-8601
`createdAt` timestamp string is modelled by the epoch-millisecond value
that `new Date(createdAt).getTime()` yields on it; an absent (or falsy)
field is `none`. -/
structure GoDaddyDomain where
  domain : String
  domainId : Nat
  status : String
  expires : Option String := none
  expirationProtected : Option Bool := none
  holdRegistrar : Option Bool := none
  locked : Option Bool := none
  privacy : Option Bool := none
  renewAuto : Option Bool := none
  renewable : Option Bool := none
  transferProtected : Option Bool := none
  createdAt : Option Int := none
  authCode : Option String := none
  nameServers : Option (List String) := none
deriving Repr, DecidableEq

/-- `UNSUPPORTED_TLDS`: TLDs that Cloudflare Registrar does NOT support. -/
def UNSUPPORTED_TLDS : List String :=
  ["uk", "co.uk", "org.uk", "me.uk", "de", "ca", "au", "com.au", "net.au",
   "jp", "eu", "be", "fr", "nl"]

/-- `PreflightResult`. -/
structure PreflightResult where
  domain : String
  eligible : Bool
  reasons : List String
deriving Repr, DecidableEq

/-- The ineligibility reason pushed by the 60-day age rule, with
`Math.floor` of the age and `Math.ceil` of the days remaining. -/
def ageReason (daysSinceCreation : ℚ) : String :=
  let daysRemaining : ℤ := ⌈(60 : ℚ) - daysSinceCreation⌉
  "Domain is only " ++ toString (⌊daysSinceCreation⌋ : ℤ) ++
    " days old — ICANN requires 60 days before transfer. Try again in " ++
    toString daysRemaining ++ " day" ++
    (if daysRemaining = 1 then "" else "s") ++ "."

/-- `preflightCheck`. `Date.now()` is passed in explicitly as `now`
(epoch milliseconds); the age in days is the exact rational
`(now − createdAt) / 86_400_000` the source computes. -/
def preflightCheck (domain : GoDaddyDomain) (now : Int) : PreflightResult :=
  let reasons0 : List String := []
  -- Check status
  let reasons1 :=
    if domain.status ≠ "ACTIVE" then
      reasons0 ++ ["Status is " ++ domain.status ++
        " — domain must be ACTIVE to transfer. Check your GoDaddy dashboard for holds or suspensions."]
    else reasons0
  -- Check domain age (60-day ICANN lock)
  let reasons2 :=
    match domain.createdAt with
    | some created =>
        let daysSinceCreation : ℚ :=
          ((now - created : Int) : ℚ) / (1000 * 60 * 60 * 24)
        if daysSinceCreation < 60 then
          reasons1 ++ [ageReason daysSinceCreation]
        else reasons1
    | none => reasons1
  -- Check TLD support
  let tld := joinChar '.' ((splitChar '.' domain.domain.data).drop 1)
  let reasons3 :=
    if UNSUPPORTED_TLDS.contains tld then
      reasons2 ++ ["TLD ." ++ tld ++
        " is not supported by Cloudflare Registrar — see https://www.cloudflare.com/tld-policies/ for supported TLDs"]
    else reasons2
  -- Check Domain Protection (cannot be disabled via API — requires dashboard
  -- identity verification)
  let reasons4 :=
    if domain.transferProtected.getD false then
      reasons3 ++ ["Domain Protection is enabled — disable at https://dcc.godaddy.com → select domain → Secure → downgrade to None (requires identity verification)"]
    else reasons3
  { domain := domain.domain, eligible := reasons4.isEmpty, reasons := reasons4 }

/-! ## Claim C5: domains younger than 60 days are ineligible -/

/-- C5: whenever the age since creation is below 60 days, `preflightCheck`
reports ineligible and the reason list contains the age reason, whose
remaining-day count is `⌈60 − age_days⌉`. -/
theorem c5_preflight_under_60_days (domain : GoDaddyDomain)
    (now created : Int) (hc : domain.createdAt = some created)
    (hage : ((now - created : Int) : ℚ) / (1000 * 60 * 60 * 24) < 60) :
    (preflightCheck domain now).eligible = false ∧
    ageReason (((now - created : Int) : ℚ) / (1000 * 60 * 60 * 24)) ∈
      (preflightCheck domain now).reasons := by
  simp only [preflightCheck, hc, if_pos hage]
  split <;> split <;> split <;> simp

/-- Witness for C5: a domain created exactly 45 days before `now` is
ineligible, carries the age reason, and that reason announces 15 remaining
days (plural). -/
theorem c5_witness :
    ((preflightCheck
        { domain := "example.com", domainId := 1, status := "ACTIVE",
          createdAt := some 0 } (45 * 86400000)).eligible = false ∧
      ageReason (((45 * 86400000 - 0 : Int) : ℚ) / (1000 * 60 * 60 * 24)) ∈
        (preflightCheck
          { domain := "example.com", domainId := 1, status := "ACTIVE",
            createdAt := some 0 } (45 * 86400000)).reasons) ∧
    ageReason (((45 * 86400000 - 0 : Int) : ℚ) / (1000 * 60 * 60 * 24)) =
      "Domain is only 45 days old — ICANN requires 60 days before transfer. Try again in 15 days." := by
  refine ⟨c5_preflight_under_60_days _ (45 * 86400000) 0 rfl (by norm_num), ?_⟩
  have hq : ((45 * 86400000 - 0 : Int) : ℚ) / (1000 * 60 * 60 * 24) = 45 := by
    norm_num
  rw [hq, ageReason]
  have hceil : (⌈(60 : ℚ) - 45⌉ : ℤ) = 15 := by norm_num
  have hfloor : (⌊(45 : ℚ)⌋ : ℤ) = 45 := by norm_num
  rw [hceil, hfloor]
  decide

/-! ## Claim C10: no creation date ⇒ no age check -/

/-- C10: when `createdAt` is absent, `preflightCheck` performs no age check:
its result does not depend on the current time, the reason list is exactly
the output of the three remaining rules (status, TLD, protection) with no
age reason, and a domain passing those three rules is eligible no matter
how old it actually is. -/
theorem c10_absent_created_skips_age (domain : GoDaddyDomain)
    (now now' : Int) (hc : domain.createdAt = none) :
    preflightCheck domain now = preflightCheck domain now' ∧
    (preflightCheck domain now).reasons =
      (if domain.status ≠ "ACTIVE" then
        ["Status is " ++ domain.status ++
          " — domain must be ACTIVE to transfer. Check your GoDaddy dashboard for holds or suspensions."]
      else []) ++
      (if UNSUPPORTED_TLDS.contains
          (joinChar '.' ((splitChar '.' domain.domain.data).drop 1)) then
        ["TLD ." ++
          joinChar '.' ((splitChar '.' domain.domain.data).drop 1) ++
          " is not supported by Cloudflare Registrar — see https://www.cloudflare.com/tld-policies/ for supported TLDs"]
      else []) ++
      (if domain.transferProtected.getD false then
        ["Domain Protection is enabled — disable at https://dcc.godaddy.com → select domain → Secure → downgrade to None (requires identity verification)"]
      else []) ∧
    (domain.status = "ACTIVE" →
      UNSUPPORTED_TLDS.contains
        (joinChar '.' ((splitChar '.' domain.domain.data).drop 1)) = false →
      domain.transferProtected.getD false = false →
      (preflightCheck domain now).eligible = true) := by
  refine ⟨?_, ?_, ?_⟩
  · simp only [preflightCheck, hc]
  · simp only [preflightCheck, hc]
    split <;> split <;> split <;> simp
  · intro h1 h2 h3
    simp only [preflightCheck, hc, h1, h2, h3]
    simp

/-- Witness for C10: a 10-year-old clock offset changes nothing for a clean
domain without a creation date, which stays eligible. -/
theorem c10_witness :
    preflightCheck
        { domain := "example.com", domainId := 1, status := "ACTIVE" }
        (3650 * 86400000) =
      preflightCheck
        { domain := "example.com", domainId := 1, status := "ACTIVE" } 0 ∧
    (preflightCheck
        { domain := "example.com", domainId := 1, status := "ACTIVE" }
        (3650 * 86400000)).eligible = true := by
  have h := c10_absent_created_skips_age
    { domain := "example.com", domainId := 1, status := "ACTIVE" }
    (3650 * 86400000) 0 rfl
  exact ⟨h.1, h.2.2 rfl (by decide) rfl⟩

/-! ## Lock-aware retry layer (src/providers/godaddy.ts) -/

/-- A JavaScript `Error` as the engine observes it: a message, plus the
`statusCode` field that `GoDaddyApiError` adds. -/
structure JsError where
  message : String
  statusCode : Option Nat := none
deriving Repr, DecidableEq

/-- The outcome of one `fetch` call: `res.ok`, or a non-2xx status with its
body text. -/
inductive FetchResult where
  | ok
  | err (status : Nat) (body : String)
deriving Repr, DecidableEq

/-- `new GoDaddyApiError(...)` as thrown by the retry loop. -/
def goDaddyApiError (status : Nat) (body : String) : JsError :=
  { message := "GoDaddy API error " ++ toString status ++ ": " ++ body,
    statusCode := some status }

/-- `RESOURCE_LOCK_BASE_DELAY_MS`. -/
def RESOURCE_LOCK_BASE_DELAY_MS : Nat := 5000

/-- `RESOURCE_LOCK_MAX_RETRIES` in the revision whose `requestVoid` carries
its own retry loop. -/
def RESOURCE_LOCK_MAX_RETRIES_V1 : Nat := 4

/-- `RESOURCE_LOCK_MAX_RETRIES` in the revision that centralises the loop
in `fetchWithRetry`. -/
def RESOURCE_LOCK_MAX_RETRIES_V2 : Nat := 6

/-- The retry loop shared (up to the constants) by `requestVoid` and
`fetchWithRetry`: `responses i` is what the i-th `fetch` attempt returns,
`fuel` counts the loop iterations still allowed (`maxRetries + 1 - attempt`
at entry). Returns the backoff sleeps issued, in milliseconds and in
order, next to the overall outcome. -/
def fetchLoop (responses : Nat → FetchResult) (maxRetries baseDelay : Nat) :
    Nat → Nat → List Nat × Except JsError Unit
  | _, 0 => ([], .error { message := "Exhausted retries" })
  | attempt, fuel + 1 =>
    match responses attempt with
    | .ok => ([], .ok ())
    | .err status body =>
      -- Retry on 422 resource lock with linear backoff
      if status == 422 && jsIncludes body "Resource is being used" &&
          decide (attempt < maxRetries) then
        let delay := baseDelay * (attempt + 1)
        let rest := fetchLoop responses maxRetries baseDelay (attempt + 1) fuel
        (delay :: rest.1, rest.2)
      else
        ([], .error (goDaddyApiError status body))

/-- `fetchWithRetry` (and the loop body of the earlier `requestVoid`):
`for (let attempt = 0; attempt <= RESOURCE_LOCK_MAX_RETRIES; attempt++)`. -/
def fetchWithRetry (responses : Nat → FetchResult)
    (maxRetries baseDelay : Nat) : List Nat × Except JsError Unit :=
  fetchLoop responses maxRetries baseDelay 0 (maxRetries + 1)
/-- Pinned-down form of the loop when every attempt hits the 422 resource
lock: from attempt `a` (with the remaining fuel the entry point grants) it
sleeps `base×(a+1) … base×maxRetries` and then surfaces the 422 as a
`GoDaddyApiError`. -/
theorem fetchLoop_all_locked (responses : Nat → FetchResult)
    (maxRetries baseDelay : Nat) (body : String)
    (hresp : ∀ i, responses i = .err 422 body)
    (hbody : jsIncludes body "Resource is being used" = true) :
    ∀ fuel attempt, attempt + fuel = maxRetries + 1 → attempt ≤ maxRetries →
      fetchLoop responses maxRetries baseDelay attempt fuel =
        ((List.range' (attempt + 1) (maxRetries - attempt)).map
          (fun j => baseDelay * j),
         .error (goDaddyApiError 422 body)) := by
  intro fuel
  induction fuel with
  | zero => intro attempt hsum hle; omega
  | succ n ih =>
    intro attempt hsum hle
    rw [fetchLoop, hresp attempt]
    by_cases hlt : attempt < maxRetries
    · have hrec := ih (attempt + 1) (by omega) (by omega)
      have hk : maxRetries - attempt = (maxRetries - (attempt + 1)) + 1 := by
        omega
      simp [hbody, hlt, hrec, hk, List.range'_succ]
    · have ha : attempt = maxRetries := by omega
      subst ha
      simp [hlt, Nat.sub_self]

/-- Pinned-down form of the loop when attempts before `s` hit the 422
resource lock and attempt `s` succeeds: from attempt `a` it sleeps
`base×(a+1) … base×s` and returns success. -/
theorem fetchLoop_ok_after_locks (responses : Nat → FetchResult)
    (maxRetries baseDelay s : Nat) (hok : responses s = .ok)
    (hlock : ∀ i, i < s → ∃ bi, responses i = .err 422 bi ∧
      jsIncludes bi "Resource is being used" = true)
    (hsm : s ≤ maxRetries) :
    ∀ fuel attempt, attempt + fuel = maxRetries + 1 → attempt ≤ s →
      fetchLoop responses maxRetries baseDelay attempt fuel =
        ((List.range' (attempt + 1) (s - attempt)).map
          (fun j => baseDelay * j), .ok ()) := by
  intro fuel
  induction fuel with
  | zero => intro attempt hsum hle; omega
  | succ n ih =>
    intro attempt hsum hle
    by_cases heq : attempt = s
    · subst heq
      rw [fetchLoop, hok]
      simp [Nat.sub_self]
    · have hlt : attempt < s := by omega
      obtain ⟨bi, hbi, hbodyi⟩ := hlock attempt hlt
      have hrec := ih (attempt + 1) (by omega) (by omega)
      have hk : s - attempt = (s - (attempt + 1)) + 1 := by omega
      rw [fetchLoop, hbi]
      simp [hbodyi, show attempt < maxRetries by omega, hrec, hk,
        List.range'_succ]

/-! ## Claim C4: linear backoff on resource-lock 422s, bounded retries -/

/-- C4: if the 1st and 2nd attempts of a mutating call hit the 422
`Resource is being used` response and the 3rd succeeds, the loop sleeps
exactly twice, `base×1` then `base×2` milliseconds, and succeeds; and when
every attempt stays locked the retries stop after `maxRetries` sleeps
(`base×1 … base×maxRetries`) and the 422 surfaces as a hard
`GoDaddyApiError`. Both revisions' retry budgets (4 in `requestVoid`, 6 in
`fetchWithRetry`) satisfy the bound the 3-attempt scenario needs. -/
theorem c4_lock_retry_linear_backoff :
    (∀ (responses : Nat → FetchResult) (maxRetries baseDelay : Nat)
        (b₀ b₁ : String),
      responses 0 = .err 422 b₀ →
      jsIncludes b₀ "Resource is being used" = true →
      responses 1 = .err 422 b₁ →
      jsIncludes b₁ "Resource is being used" = true →
      responses 2 = .ok →
      2 ≤ maxRetries →
      fetchWithRetry responses maxRetries baseDelay =
        ([baseDelay * 1, baseDelay * 2], .ok ())) ∧
    (∀ (responses : Nat → FetchResult) (maxRetries baseDelay : Nat)
        (body : String),
      (∀ i, responses i = .err 422 body) →
      jsIncludes body "Resource is being used" = true →
      fetchWithRetry responses maxRetries baseDelay =
        ((List.range' 1 maxRetries).map (fun j => baseDelay * j),
         .error (goDaddyApiError 422 body))) ∧
    2 ≤ RESOURCE_LOCK_MAX_RETRIES_V1 ∧ 2 ≤ RESOURCE_LOCK_MAX_RETRIES_V2 := by
  refine ⟨?_, ?_, by decide, by decide⟩
  · intro responses maxRetries baseDelay b₀ b₁ h0 hb0 h1 hb1 h2 hm
    have h := fetchLoop_ok_after_locks responses maxRetries baseDelay 2 h2
      (by
        intro i hi
        match i with
        | 0 => exact ⟨b₀, h0, hb0⟩
        | 1 => exact ⟨b₁, h1, hb1⟩
        | n + 2 => omega)
      hm (maxRetries + 1) 0 (by omega) (by omega)
    rw [fetchWithRetry, h]
    have : List.range' (0 + 1) (2 - 0) = [1, 2] := rfl
    rw [this]
    simp
  · intro responses maxRetries baseDelay body hresp hbody
    have h := fetchLoop_all_locked responses maxRetries baseDelay body hresp
      hbody (maxRetries + 1) 0 (by omega) (by omega)
    rw [fetchWithRetry, h]
    simp

/-- Witness for C4: the concrete 3-attempt scenario with the source's base
delay of 5000 ms and the `fetchWithRetry` revision's budget of 6 — the two
sleeps are 5000 ms and 10000 ms. -/
theorem c4_witness :
    fetchWithRetry
      (fun i => if i < 2
        then .err 422 "Resource is being used in another request"
        else .ok)
      RESOURCE_LOCK_MAX_RETRIES_V2 RESOURCE_LOCK_BASE_DELAY_MS =
      ([5000 * 1, 5000 * 2], .ok ()) :=
  c4_lock_retry_linear_backoff.1
    (fun i => if i < 2
      then .err 422 "Resource is being used in another request"
      else .ok)
    RESOURCE_LOCK_MAX_RETRIES_V2 RESOURCE_LOCK_BASE_DELAY_MS
    "Resource is being used in another request"
    "Resource is being used in another request"
    (by decide) (by decide) (by decide) (by decide) (by decide) (by decide)

/-! ## Migration store (src/types/config.ts, src/services/state-manager.ts) -/

/-- `DomainStatus`. -/
inductive DomainStatus where
  | pending
  | dns_migrated
  | unlocked
  | auth_obtained
  | ns_changed
  | transfer_initiated
  | completed
  | failed
deriving Repr, DecidableEq

/-- One persisted domain record (`DomainMigrationState`). The current
schema has no auth-code field; `authCode` here stands for the legacy copies
that older releases wrote into domain state and that `sanitizeMigration`
strips on every read. -/
structure DomainMigrationState where
  domain : String
  status : DomainStatus
  dnsRecordsBackup : List GoDaddyDnsRecord := []
  cloudflareZoneId : Option String := none
  cloudflareNameservers : Option (List String) := none
  error : Option String := none
  lastUpdated : String := ""
  authCode : Option String := none
deriving Repr, DecidableEq

/-- `MigrationState`: one migration run. The TS object mapping domain
names to states is modelled as the list of its values. -/
structure MigrationState where
  id : String
  startedAt : String
  domains : List DomainMigrationState
deriving Repr, DecidableEq

/-- The persisted `Conf` store (`StoreSchema`), restricted to the parts the
claims concern. -/
structure StoreSchema where
  migrations : List (String × MigrationState)
  activeMigrationId : Option String
deriving Repr, DecidableEq

/-- `sanitizeMigration`: strip any auth codes left by older versions. -/
def sanitizeMigration (migration : MigrationState) : MigrationState :=
  { migration with
    domains := migration.domains.map (fun d => { d with authCode := none }) }

/-- `getMigration`: read one run by id, sanitized. -/
def getMigration (store : StoreSchema) (id : String) : Option MigrationState :=
  (store.migrations.lookup id).map sanitizeMigration

/-- `getActiveMigration`: read the active run, sanitized. -/
def getActiveMigration (store : StoreSchema) : Option MigrationState :=
  match store.activeMigrationId with
  | none => none
  | some id => getMigration store id

/-- `getResumableDomains`: every domain of the run whose status is neither
`completed` nor `transfer_initiated`. -/
def getResumableDomains (store : StoreSchema) (migrationId : String) :
    List DomainMigrationState :=
  match getMigration store migrationId with
  | none => []
  | some migration =>
      migration.domains.filter
        (fun d => d.status != .completed && d.status != .transfer_initiated)

/-- The domain names `resumeCommand` re-executes
(`resumable.map((d) => d.domain)` handed to `createMigrationTasks`); the
prompts, credential checks and early exits around that call only decide
whether to run at all, never which domains. -/
def resumeDomainNames (store : StoreSchema) (migrationId : String) :
    List String :=
  (getResumableDomains store migrationId).map (fun d => d.domain)

/-! ## Error formatting (src/services/errors.ts) -/

/-- One entry of the hint tables: a predicate over (message, statusCode)
and the suggestion appended when it matches. The source's field `match` is
called `matchFn` here because `matches` is reserved in Lean. -/
structure ErrorHint where
  matchFn : String → Option Nat → Bool
  suggestion : String

/-- `GODADDY_HINTS`. -/
def GODADDY_HINTS : List ErrorHint :=
  [{ matchFn := fun _ status => status == some 401 || status == some 403,
     suggestion := "Check your GoDaddy API key and secret at https://developer.godaddy.com/keys" },
   { matchFn := fun _ status => status == some 429,
     suggestion := "GoDaddy rate limit hit. Wait a minute and try again, or reduce concurrency." },
   { matchFn := fun msg _ => jsIncludes msg "DOMAIN_LOCKED",
     suggestion := "Domain is locked. It may take a few minutes after unlocking before GoDaddy reflects the change." },
   { matchFn := fun msg _ => jsIncludes msg "409" || jsIncludes msg "Conflict",
     suggestion := "The auth code may have been sent to your email instead. Check your inbox and use `nodaddy resume` to continue." },
   { matchFn := fun msg _ =>
       jsIncludes msg "UNABLE_TO_AUTHENTICATE" || jsIncludes msg "NOT_FOUND",
     suggestion := "Make sure you are using a Production API key (not OTE/Test) at https://developer.godaddy.com/keys" }]

/-- `CLOUDFLARE_HINTS`. -/
def CLOUDFLARE_HINTS : List ErrorHint :=
  [{ matchFn := fun _ status => status == some 401 || status == some 403,
     suggestion := "Check your Cloudflare API token permissions. Required: Zone:Edit, DNS:Edit, Registrar Domains:Edit" },
   { matchFn := fun msg _ => jsIncludes msg "already exists",
     suggestion := "This zone already exists in Cloudflare. You may need to delete it first or use the existing zone." },
   { matchFn := fun _ status => status == some 429,
     suggestion := "Cloudflare rate limit hit. The tool will automatically retry with backoff." },
   { matchFn := fun msg _ => jsIncludes msg "not_registrable",
     suggestion := "This TLD cannot be transferred to Cloudflare Registrar. DNS-only setup is still possible." },
   { matchFn := fun msg _ => jsIncludes msg "did not become active",
     suggestion := "Nameserver changes can take up to 48 hours to propagate. Run `nodaddy resume` to retry later." }]

/-- The two provider adapters. -/
inductive Provider where
  | godaddy
  | cloudflare
deriving Repr, DecidableEq

/-- `chalk.yellow`: wrap in the ANSI yellow escape codes. -/
def chalkYellow (s : String) : String := "\x1b[33m" ++ s ++ "\x1b[39m"

/-- `formatError`. -/
def formatError (err : JsError) (provider : Option Provider)
    (plain : Bool) : String :=
  let message := err.message
  let statusCode := err.statusCode
  let hints :=
    match provider with
    | some .godaddy => GODADDY_HINTS
    | some .cloudflare => CLOUDFLARE_HINTS
    | none => GODADDY_HINTS ++ CLOUDFLARE_HINTS
  match hints.find? (fun h => h.matchFn message statusCode) with
  | some hint =>
      if plain then message ++ " | Suggestion: " ++ hint.suggestion
      else message ++ "\n  " ++ chalkYellow "Suggestion:" ++ " " ++
        hint.suggestion
  | none => message

/-! ## Transfer Engine (src/services/transfer-engine.ts) -/

/-- A Cloudflare zone (`CloudflareZoneSchema`) as the engine uses it. -/
structure CfZone where
  id : String
  name : String
  status : String
  name_servers : Option (List String) := none
deriving Repr, DecidableEq

/-- The ICANN registrant contact payload. The engine only checks its
presence and forwards it, so its contents stay opaque. -/
structure RegistrantContact where
  payload : String := ""
deriving Repr, DecidableEq

/-- `MigrationOptions`. -/
structure MigrationOptions where
  dryRun : Bool
  migrateRecords : Bool
  proxied : Bool
deriving Repr, DecidableEq

/-- One `state.updateDomainStatus` call: the status written plus the extra
fields merged into the domain's persisted record (`state.saveDnsBackup` is
the `pending` write carrying the backup). `authCode` mirrors the legacy
schema slot so that the no-auth-code-at-rest claim is about the writes the
engine actually performs instead of holding by type. -/
structure StateWrite where
  status : DomainStatus
  dnsRecordsBackup : Option (List GoDaddyDnsRecord) := none
  cloudflareZoneId : Option String := none
  cloudflareNameservers : Option (List String) := none
  error : Option String := none
  authCode : Option String := none
deriving Repr, DecidableEq

/-- An observable action of `transferDomain`: a migration-store write or a
progress report `(step, status, error?)` sent to the `onProgress`
callback. -/
inductive Event where
  | write (w : StateWrite)
  | report (step : String) (status : DomainStatus) (error : Option String)
deriving Repr, DecidableEq

/-- The outcome (or `dryRun` early return) of `transferDomain`. -/
inductive TransferOutcome where
  | dryRunStop
  | finished (authCode : String)
deriving Repr, DecidableEq

/-- The fixed outcomes of every outbound call `transferDomain` can make;
per-attempt and per-record calls are functions of the attempt / record
index. -/
structure Env where
  getDnsRecords : Except JsError (List GoDaddyDnsRecord)
  createZone : Except JsError CfZone
  getZoneByName : Except JsError (Option CfZone)
  createDnsRecord : Nat → Except JsError Unit
  removePrivacy : Except JsError Unit
  prepareForTransfer : Except JsError Unit
  getDomainDetail : Nat → Except JsError GoDaddyDomain
  getAuthCode : Except JsError String
  updateNameservers : Except JsError Unit
  waitForZoneActive : Except JsError Unit
  checkAuthCode : Except JsError Unit
  initiateTransfer : Except JsError Unit

/-- `migrateDnsRecords` (src/services/dns-migrator.ts): create every
record at the destination, counting an `already exists` rejection as
success and accumulating any other failure; never throws. `create i` is
the outcome of creating the i-th record. -/
def migrateDnsRecords (create : Nat → Except JsError Unit) :
    Nat → List CloudflareDnsRecord →
    Nat × List (CloudflareDnsRecord × String)
  | _, [] => (0, [])
  | i, record :: rest =>
    let tail := migrateDnsRecords create (i + 1) rest
    match create i with
    | .ok _ => (tail.1 + 1, tail.2)
    | .error e =>
        if jsIncludes e.message "already exists" then (tail.1 + 1, tail.2)
        else (tail.1, (record, e.message) :: tail.2)

/-- Step 2's zone resolution: `createZone`, falling back to
`getZoneByName` when the zone already exists. -/
def resolveZone (env : Env) : List Event × Except JsError CfZone :=
  match env.createZone with
  | .ok zone => ([], .ok zone)
  | .error err =>
    if jsIncludes err.message "already exists" then
      ([.report "Zone already exists, looking up" .pending none],
       match env.getZoneByName with
       | .ok (some existing) => .ok existing
       | .ok none => .error err
       | .error e2 => .error e2)
    else ([], .error err)

/-- The unlock poll loop
(`for (let attempt = 0; attempt < 6; attempt++)`): reads the domain detail
up to `n` more times, returning `true` as soon as `locked` is falsy,
`false` when the budget runs out, or the first read error. -/
def pollUnlock (detail : Nat → Except JsError GoDaddyDomain) :
    Nat → Nat → Except JsError Bool
  | _, 0 => .ok false
  | attempt, n + 1 =>
    match detail attempt with
    | .error e => .error e
    | .ok d =>
        if d.locked.getD false then pollUnlock detail (attempt + 1) n
        else .ok true

/-- Provider detection in the catch of `transferDomain`
(`rawMessage.includes('GoDaddy') ? 'godaddy' : ...`). -/
def detectProvider (rawMessage : String) : Option Provider :=
  if jsIncludes rawMessage "GoDaddy" then some .godaddy
  else if jsIncludes rawMessage "Cloudflare" then some .cloudflare
  else none

/-- Step 6 (nameserver update), performed only when the zone reported
nameservers. -/
def nsStep (env : Env) (nameservers : List String) :
    List Event × Except JsError Unit :=
  if nameservers.length > 0 then
    match env.updateNameservers with
    | .error e => ([.report "Updating nameservers" .auth_obtained none],
        .error e)
    | .ok _ => ([.report "Updating nameservers" .auth_obtained none,
        .write { status := .ns_changed },
        .report "Nameservers updated" .ns_changed none], .ok ())
  else ([], .ok ())

/-- Steps 7–9 (zone activation wait, auth-code validation, transfer
initiation), performed only when a registrant contact was supplied;
without one the engine only reports `Ready for transfer`. -/
def afterNs (env : Env) (authCode : String)
    (contact : Option RegistrantContact) :
    List Event × Except JsError TransferOutcome :=
  match contact with
  | some _ =>
    match env.waitForZoneActive with
    | .error e =>
        ([.report "Waiting for zone activation (may take a few minutes)"
            .ns_changed none], .error e)
    | .ok _ =>
      match env.checkAuthCode with
      | .error e =>
          ([.report "Waiting for zone activation (may take a few minutes)"
              .ns_changed none,
            .report "Validating auth code" .ns_changed none], .error e)
      | .ok _ =>
        match env.initiateTransfer with
        | .error e =>
            ([.report "Waiting for zone activation (may take a few minutes)"
                .ns_changed none,
              .report "Validating auth code" .ns_changed none,
              .report "Initiating transfer" .ns_changed none], .error e)
        | .ok _ =>
            ([.report "Waiting for zone activation (may take a few minutes)"
                .ns_changed none,
              .report "Validating auth code" .ns_changed none,
              .report "Initiating transfer" .ns_changed none,
              .write { status := .transfer_initiated },
              .report "Transfer initiated" .transfer_initiated none],
             .ok (.finished authCode))
  | none =>
      ([.report "Ready for transfer" .ns_changed none],
       .ok (.finished authCode))

/-- Step 3's progress reports: issued only when record migration is
enabled, with a count line when some creations failed. No store write. -/
def migrateEvents (env : Env) (dnsRecords : List GoDaddyDnsRecord)
    (domain : String) (options : MigrationOptions) : List Event :=
  if options.migrateRecords then
    let cfRecords := mapGoDaddyToCloudflare dnsRecords domain options.proxied
    let result := migrateDnsRecords env.createDnsRecord 0 cfRecords
    [Event.report "Migrating DNS records" .pending none] ++
    (if result.2.length > 0 then
      [Event.report ("DNS migration: " ++ toString result.1 ++
        " created, " ++ toString result.2.length ++ " failed")
        .pending none]
    else [])
  else []

/-- Step 4's swallow-and-report handling of `removePrivacy` failures
(404 = not enabled and 409 = free-tier are silent, anything else is
reported as non-blocking; nothing is ever raised). No store write. -/
def privacyEvents (env : Env) : List Event :=
  match env.removePrivacy with
  | .ok _ => []
  | .error e =>
    if !(jsIncludes e.message "404") && !(jsIncludes e.message "409") then
      [Event.report "Privacy removal failed (non-blocking)"
        .dns_migrated none]
    else []

/-- The body of `transferDomain`'s `try` block, steps 1–9 in order, with
every store write and progress report in the emitted event list. -/
def tryBody (env : Env) (domain : String) (options : MigrationOptions)
    (contact : Option RegistrantContact) :
    List Event × Except JsError TransferOutcome :=
  -- Step 1: Export DNS records from GoDaddy
  let ev1 : List Event := [.report "Exporting DNS records" .pending none]
  match env.getDnsRecords with
  | .error e => (ev1, .error e)
  | .ok dnsRecords =>
    let ev2 := ev1 ++
      [.write { status := .pending, dnsRecordsBackup := some dnsRecords }]
    if options.dryRun then
      (ev2 ++ [.report "Dry run — would migrate DNS records" .pending none],
       .ok .dryRunStop)
    else
      -- Step 2: Create Cloudflare zone and migrate DNS
      let ev3 := ev2 ++ [.report "Creating Cloudflare zone" .pending none]
      let zr := resolveZone env
      match zr.2 with
      | .error e => (ev3 ++ zr.1, .error e)
      | .ok zone =>
        let nameservers := zone.name_servers.getD []
        let zoneWrite : StateWrite :=
          { status := .pending, cloudflareZoneId := some zone.id,
            cloudflareNameservers := some nameservers }
        let ev4 := ev3 ++ zr.1 ++ [.write zoneWrite]
        -- Step 3: Migrate DNS records
        let ev5 := ev4 ++ migrateEvents env dnsRecords domain options
        let ev6 := ev5 ++ [.write { status := .dns_migrated },
          .report "DNS migrated" .dns_migrated none]
        -- Step 4: Remove privacy if still enabled (404/409 and other
        -- failures are reported at most, never raised)
        let ev7 := ev6 ++
          [.report "Removing WHOIS privacy" .dns_migrated none] ++
          privacyEvents env
        let ev8 := ev7 ++
          [.report "Unlocking + disabling auto-renew" .dns_migrated none]
        match env.prepareForTransfer with
        | .error e => (ev8, .error e)
        | .ok _ =>
          let ev9 := ev8 ++
            [.report "Waiting for unlock to propagate" .dns_migrated none]
          match pollUnlock env.getDomainDetail 0 6 with
          | .error e => (ev9, .error e)
          | .ok false =>
              (ev9, .error { message := "Domain " ++ domain ++
                " is still locked after unlock request" })
          | .ok true =>
            let ev10 := ev9 ++ [.write { status := .unlocked },
              .report "Domain unlocked" .unlocked none,
              .report "Fetching auth code" .unlocked none]
            -- Step 5: Get auth code (kept in memory only — never persisted)
            match env.getAuthCode with
            | .error e => (ev10, .error e)
            | .ok authCode =>
              let ev11 := ev10 ++ [.write { status := .auth_obtained },
                .report "Auth code obtained" .auth_obtained none]
              -- Step 6: Update nameservers at GoDaddy
              let ns := nsStep env nameservers
              match ns.2 with
              | .error e => (ev11 ++ ns.1, .error e)
              | .ok _ =>
                -- Steps 7–9 (only with a registrant contact)
                let aft := afterNs env authCode contact
                (ev11 ++ ns.1 ++ aft.1, aft.2)

/-- The catch block's store write: status `failed` with the
provider-qualified plain error message
(`persistedError = formatError(err, provider, true)`). -/
def failedWrite (e : JsError) : StateWrite :=
  { status := .failed,
    error := some (formatError e (detectProvider e.message) true) }

/-- The catch block's progress report, carrying the formatted message. -/
def failedReport (e : JsError) : Event :=
  .report (formatError e (detectProvider e.message) false) .failed
    (some (formatError e (detectProvider e.message) false))

/-- `transferDomain`: the try body plus the catch that persists the
provider-qualified error with status `failed`, reports it and re-raises
the exception unchanged. -/
def transferDomain (env : Env) (domain : String)
    (options : MigrationOptions) (contact : Option RegistrantContact) :
    List Event × Except JsError TransferOutcome :=
  let body := tryBody env domain options contact
  match body.2 with
  | .ok v => (body.1, .ok v)
  | .error e =>
      (body.1 ++ [.write (failedWrite e), failedReport e], .error e)

/-- The store writes among a trace's events. -/
def writesOf (events : List Event) : List StateWrite :=
  events.filterMap (fun e =>
    match e with
    | .write w => some w
    | .report _ _ _ => none)

/-- The statuses written, in order. -/
def statusesOf (events : List Event) : List DomainStatus :=
  (writesOf events).map (fun w => w.status)

theorem writesOf_nil : writesOf [] = [] := rfl

theorem writesOf_cons_report (s : String) (st : DomainStatus)
    (e : Option String) (rest : List Event) :
    writesOf (.report s st e :: rest) = writesOf rest := rfl

theorem writesOf_cons_write (w : StateWrite) (rest : List Event) :
    writesOf (.write w :: rest) = w :: writesOf rest := rfl

theorem writesOf_append (a b : List Event) :
    writesOf (a ++ b) = writesOf a ++ writesOf b :=
  List.filterMap_append a b _

theorem writesOf_resolveZone (env : Env) :
    writesOf (resolveZone env).1 = [] := by
  rw [resolveZone]
  split
  · rfl
  · split <;> rfl

theorem writesOf_ite (c : Prop) [Decidable c] (a b : List Event) :
    writesOf (if c then a else b) =
      if c then writesOf a else writesOf b := by
  split <;> rfl

theorem writesOf_migrateEvents (env : Env)
    (dnsRecords : List GoDaddyDnsRecord) (domain : String)
    (options : MigrationOptions) :
    writesOf (migrateEvents env dnsRecords domain options) = [] := by
  rw [migrateEvents]
  split <;> simp [writesOf, writesOf_append, writesOf_ite]

theorem writesOf_privacyEvents (env : Env) :
    writesOf (privacyEvents env) = [] := by
  rw [privacyEvents]
  split
  · rfl
  · split <;> rfl

theorem nsStep_writes (env : Env) (nameservers : List String) :
    writesOf (nsStep env nameservers).1 = [] ∨
    writesOf (nsStep env nameservers).1 = [{ status := .ns_changed }] := by
  rw [nsStep]
  split
  · rcases env.updateNameservers with e | u <;> simp [writesOf]
  · simp [writesOf]

theorem afterNs_writes (env : Env) (authCode : String)
    (contact : Option RegistrantContact) :
    writesOf (afterNs env authCode contact).1 = [] ∨
    writesOf (afterNs env authCode contact).1 =
      [{ status := .transfer_initiated }] := by
  rcases contact with _ | c
  · simp [afterNs, writesOf]
  · rcases hw : env.waitForZoneActive with e | u
    · simp [afterNs, hw, writesOf]
    · rcases hc : env.checkAuthCode with e | u
      · simp [afterNs, hw, hc, writesOf]
      · rcases hi : env.initiateTransfer with e | u <;>
          simp [afterNs, hw, hc, hi, writesOf]

def pipelineStatusLists : List (List DomainStatus) :=
  [[],
   [.pending],
   [.pending, .pending, .dns_migrated],
   [.pending, .pending, .dns_migrated, .unlocked],
   [.pending, .pending, .dns_migrated, .unlocked, .auth_obtained],
   [.pending, .pending, .dns_migrated, .unlocked, .auth_obtained,
    .ns_changed],
   [.pending, .pending, .dns_migrated, .unlocked, .auth_obtained,
    .transfer_initiated],
   [.pending, .pending, .dns_migrated, .unlocked, .auth_obtained,
    .ns_changed, .transfer_initiated]]

theorem tryBody_statuses_mem (env : Env) (domain : String)
    (options : MigrationOptions) (contact : Option RegistrantContact) :
    statusesOf (tryBody env domain options contact).1 ∈
      pipelineStatusLists := by
  have W : ∀ l : List Event,
      statusesOf l = (writesOf l).map (fun w => w.status) := fun _ => rfl
  rw [tryBody]
  rcases hdns : env.getDnsRecords with e | recs
  · simp [hdns, statusesOf, writesOf, pipelineStatusLists]
  · by_cases hdry : options.dryRun = true
    · simp [hdns, hdry, statusesOf, writesOf, pipelineStatusLists]
    · rcases hz : (resolveZone env).2 with e | zone
      · simp [hdns, hdry, hz, W, writesOf_append, writesOf_resolveZone,
          writesOf_cons_report, writesOf_cons_write, writesOf_nil,
          pipelineStatusLists]
      · rcases hprep : env.prepareForTransfer with e | u
        · simp [hdns, hdry, hz, hprep, W, writesOf_append,
            writesOf_resolveZone, writesOf_migrateEvents,
            writesOf_privacyEvents, writesOf_cons_report,
            writesOf_cons_write, writesOf_nil, pipelineStatusLists]
        · rcases hpoll : pollUnlock env.getDomainDetail 0 6 with e | b
          · simp [hdns, hdry, hz, hprep, hpoll, W, writesOf_append,
              writesOf_resolveZone, writesOf_migrateEvents,
              writesOf_privacyEvents, writesOf_cons_report,
              writesOf_cons_write, writesOf_nil, pipelineStatusLists]
          · cases b
            · simp [hdns, hdry, hz, hprep, hpoll, W, writesOf_append,
                writesOf_resolveZone, writesOf_migrateEvents,
                writesOf_privacyEvents, writesOf_cons_report,
                writesOf_cons_write, writesOf_nil, pipelineStatusLists]
            · rcases hauth : env.getAuthCode with e | code
              · simp [hdns, hdry, hz, hprep, hpoll, hauth, W,
                  writesOf_append, writesOf_resolveZone,
                  writesOf_migrateEvents, writesOf_privacyEvents,
                  writesOf_cons_report, writesOf_cons_write, writesOf_nil,
                  pipelineStatusLists]
              · rcases hns2 : (nsStep env (zone.name_servers.getD [])).2
                  with e | u2
                · rcases nsStep_writes env (zone.name_servers.getD [])
                    with hns | hns <;>
                    simp [hdns, hdry, hz, hprep, hpoll, hauth, hns2, hns, W,
                      writesOf_append, writesOf_resolveZone,
                      writesOf_migrateEvents, writesOf_privacyEvents,
                      writesOf_cons_report, writesOf_cons_write,
                      writesOf_nil, pipelineStatusLists]
                · rcases nsStep_writes env (zone.name_servers.getD [])
                    with hns | hns <;>
                  rcases afterNs_writes env code contact with haft | haft <;>
                    simp [hdns, hdry, hz, hprep, hpoll, hauth, hns2, hns,
                      haft, W, writesOf_append, writesOf_resolveZone,
                      writesOf_migrateEvents, writesOf_privacyEvents,
                      writesOf_cons_report, writesOf_cons_write,
                      writesOf_nil, pipelineStatusLists]

/-! ## Batch scheduler (src/ui/progress.ts — createMigrationTasks) -/

/-- The per-domain task body of `createMigrationTasks`: run
`transferDomain`, record `{success: true}` or `{success: false, error}` in
the shared results map, and re-throw. -/
def migrationTaskResult (env : Env) (domain : String)
    (options : MigrationOptions) (contact : Option RegistrantContact) :
    Bool × Option String :=
  match (transferDomain env domain options contact).2 with
  | .ok _ => (true, none)
  | .error e => (false, some e.message)

/-- `createMigrationTasks` runs one task per domain under `Listr` with
`exitOnError: false` on the task and on the batch: a task's exception is
recorded into the results map and does not cancel sibling tasks. The
bounded concurrency (8 at a time) has no effect on the per-domain results,
so the batch is modelled as the list of independent per-domain results. -/
def runMigrationTasks (envOf : String → Env) (domains : List String)
    (options : MigrationOptions) (contact : Option RegistrantContact) :
    List (String × Bool × Option String) :=
  domains.map (fun dm => (dm, migrationTaskResult (envOf dm) dm options contact))

/-! ## Pipeline order -/

/-- Position of a status in the pipeline order
`pending → dns_migrated → unlocked → auth_obtained → ns_changed →
transfer_initiated`; the terminal `completed` and the escape `failed` sit
above every pipeline step. -/
def pipelineRank : DomainStatus → Nat
  | .pending => 0
  | .dns_migrated => 1
  | .unlocked => 2
  | .auth_obtained => 3
  | .ns_changed => 4
  | .transfer_initiated => 5
  | .completed => 6
  | .failed => 7

/-- Collapse consecutive duplicate entries. -/
def collapseDups : List Nat → List Nat
  | [] => []
  | [a] => [a]
  | a :: b :: rest =>
    if a = b then collapseDups (b :: rest) else a :: collapseDups (b :: rest)

/-- Is the list non-decreasing? -/
def chainLe : List Nat → Bool
  | [] => true
  | [_] => true
  | a :: b :: rest => a ≤ b && chainLe (b :: rest)

/-- Does every consecutive pair advance by exactly one? -/
def chainSucc : List Nat → Bool
  | [] => true
  | [_] => true
  | a :: b :: rest => b == a + 1 && chainSucc (b :: rest)

/-! ## Sample environments for witnesses and counterexamples -/

/-- A zone whose creation succeeded with the usual two nameservers. -/
def happyZone : CfZone :=
  { id := "z1", name := "example.com", status := "pending",
    name_servers := some ["ada.ns.cloudflare.com", "bob.ns.cloudflare.com"] }

/-- A domain detail read showing the unlock has propagated. -/
def happyDetail : GoDaddyDomain :=
  { domain := "example.com", domainId := 1, status := "ACTIVE",
    locked := some false }

/-- The single A record served by `happyEnv`. -/
def happyRecord : GoDaddyDnsRecord :=
  { type := "A", name := "@", data := "1.2.3.4", ttl := 600 }

/-- An environment in which every outbound call succeeds. -/
def happyEnv : Env :=
  { getDnsRecords := .ok [happyRecord],
    createZone := .ok happyZone,
    getZoneByName := .ok none,
    createDnsRecord := fun _ => .ok (),
    removePrivacy := .ok (),
    prepareForTransfer := .ok (),
    getDomainDetail := fun _ => .ok happyDetail,
    getAuthCode := .ok "SECRET",
    updateNameservers := .ok (),
    waitForZoneActive := .ok (),
    checkAuthCode := .ok (),
    initiateTransfer := .ok () }

/-- The same environment, except that the created zone reports an empty
nameserver list. -/
def noNsEnv : Env :=
  { happyEnv with
    createZone := .ok { happyZone with name_servers := some [] } }

/-- The same environment, except that the unlock mutation fails. -/
def failEnv : Env :=
  { happyEnv with
    prepareForTransfer :=
      .error { message := "GoDaddy API error 422: boom", statusCode := some 422 } }

/-- The standard options bundle: live run with record migration. -/
def stdOptions : MigrationOptions :=
  { dryRun := false, migrateRecords := true, proxied := false }

/-- C2. -/
theorem c2_resumable_set :
    (∀ (store : StoreSchema) (migrationId : String)
        (d : DomainMigrationState),
      d ∈ getResumableDomains store migrationId ↔
        ∃ m, getMigration store migrationId = some m ∧ d ∈ m.domains ∧
          d.status ≠ .completed ∧ d.status ≠ .transfer_initiated) ∧
    (∀ (store : StoreSchema) (migrationId : String),
      (getResumableDomains store migrationId).filter
        (fun d => d.status != .completed && d.status != .transfer_initiated)
        = getResumableDomains store migrationId) ∧
    (∀ (store : StoreSchema) (migrationId : String) (name : String),
      name ∈ resumeDomainNames store migrationId →
      ∃ d, d ∈ getResumableDomains store migrationId ∧ d.domain = name ∧
        d.status ≠ .completed ∧ d.status ≠ .transfer_initiated) := by
  have key : ∀ (store : StoreSchema) (migrationId : String)
      (d : DomainMigrationState),
      d ∈ getResumableDomains store migrationId ↔
        ∃ m, getMigration store migrationId = some m ∧ d ∈ m.domains ∧
          d.status ≠ .completed ∧ d.status ≠ .transfer_initiated := by
    intro store migrationId d
    rw [getResumableDomains]
    rcases hm : getMigration store migrationId with _ | m
    · simp
    · simp [List.mem_filter, and_assoc]
  refine ⟨key, ?_, ?_⟩
  · intro store migrationId
    rw [getResumableDomains]
    rcases hm : getMigration store migrationId with _ | m
    · simp
    · exact List.filter_eq_self.mpr (fun a ha => (List.mem_filter.mp ha).2)
  · intro store migrationId name hname
    rw [resumeDomainNames] at hname
    obtain ⟨d, hd, rfl⟩ := List.mem_map.mp hname
    obtain ⟨m, _, _, hc, ht⟩ := (key store migrationId d).mp hd
    exact ⟨d, hd, rfl, hc, ht⟩

/-- A run with one completed, one failed and one transfer-initiated
domain. -/
def sampleRun : MigrationState :=
  { id := "run1", startedAt := "2024-01-01T00:00:00Z",
    domains :=
      [{ domain := "done.com", status := .completed },
       { domain := "broken.com", status := .failed, error := some "boom" },
       { domain := "init.com", status := .transfer_initiated }] }

/-- A store holding `sampleRun` as the active migration. -/
def sampleStore : StoreSchema :=
  { migrations := [("run1", sampleRun)], activeMigrationId := some "run1" }

/-- Witness for C2: in the sample store only the failed domain is
re-executed by resume, and it is neither completed nor
transfer-initiated. -/
theorem c2_witness :
    ∃ d, d ∈ getResumableDomains sampleStore "run1" ∧
      d.domain = "broken.com" ∧ d.status ≠ .completed ∧
      d.status ≠ .transfer_initiated :=
  c2_resumable_set.2.2 sampleStore "run1" "broken.com" (by decide)

theorem nsStep_writes_no_auth (env : Env) (nameservers : List String) :
    ∀ w ∈ writesOf (nsStep env nameservers).1, w.authCode = none := by
  rcases nsStep_writes env nameservers with h | h <;> rw [h] <;> simp

theorem afterNs_writes_no_auth (env : Env) (authCode : String)
    (contact : Option RegistrantContact) :
    ∀ w ∈ writesOf (afterNs env authCode contact).1, w.authCode = none := by
  rcases afterNs_writes env authCode contact with h | h <;> rw [h] <;> simp

theorem tryBody_writes_no_auth (env : Env) (domain : String)
    (options : MigrationOptions) (contact : Option RegistrantContact) :
    ∀ w ∈ writesOf (tryBody env domain options contact).1,
      w.authCode = none := by
  rw [tryBody]
  rcases hdns : env.getDnsRecords with e | recs
  · simp [writesOf]
  · by_cases hdry : options.dryRun = true
    · simp [hdry, writesOf]
    · rcases hz : (resolveZone env).2 with e | zone
      · simp [hdry, hz, writesOf_append, writesOf_resolveZone,
          writesOf_cons_report, writesOf_cons_write, writesOf_nil]
      · rcases hprep : env.prepareForTransfer with e | u
        · simp [hdry, hz, hprep, writesOf_append, writesOf_resolveZone,
            writesOf_migrateEvents, writesOf_privacyEvents,
            writesOf_cons_report, writesOf_cons_write, writesOf_nil]
        · rcases hpoll : pollUnlock env.getDomainDetail 0 6 with e | b
          · simp [hdry, hz, hprep, hpoll, writesOf_append,
              writesOf_resolveZone, writesOf_migrateEvents,
              writesOf_privacyEvents, writesOf_cons_report,
              writesOf_cons_write, writesOf_nil]
          · cases b
            · simp [hdry, hz, hprep, hpoll, writesOf_append,
                writesOf_resolveZone, writesOf_migrateEvents,
                writesOf_privacyEvents, writesOf_cons_report,
                writesOf_cons_write, writesOf_nil]
            · rcases hauth : env.getAuthCode with e | code
              · simp [hdry, hz, hprep, hpoll, hauth, writesOf_append,
                  writesOf_resolveZone, writesOf_migrateEvents,
                  writesOf_privacyEvents, writesOf_cons_report,
                  writesOf_cons_write, writesOf_nil]
              · rcases hns2 : (nsStep env (zone.name_servers.getD [])).2
                  with e | u2
                · rcases nsStep_writes env (zone.name_servers.getD [])
                    with hns | hns <;>
                    simp [hdry, hz, hprep, hpoll, hauth, hns2, hns,
                      writesOf_append, writesOf_resolveZone,
                      writesOf_migrateEvents, writesOf_privacyEvents,
                      writesOf_cons_report, writesOf_cons_write, writesOf_nil]
                · rcases nsStep_writes env (zone.name_servers.getD [])
                    with hns | hns <;>
                  rcases afterNs_writes env code contact with haft | haft <;>
                    simp [hdry, hz, hprep, hpoll, hauth, hns2, hns, haft,
                      writesOf_append, writesOf_resolveZone,
                      writesOf_migrateEvents, writesOf_privacyEvents,
                      writesOf_cons_report, writesOf_cons_write, writesOf_nil]

/-- Stable descending insertion into an already-sorted list: an element
goes before the first strictly-smaller key, after equal keys. -/
def insertByDesc (key : MigrationState → Int) (m : MigrationState) :
    List MigrationState → List MigrationState
  | [] => [m]
  | x :: xs =>
    if key x ≤ key m then m :: x :: xs else x :: insertByDesc key m xs

/-- Stable descending insertion sort, modelling the stable
comparator sort `Array.prototype.sort` performs. -/
def sortByDesc (key : MigrationState → Int) :
    List MigrationState → List MigrationState
  | [] => []
  | x :: xs => insertByDesc key x (sortByDesc key xs)

/-- `getAllMigrations`: every stored run, most-recent-first by
`new Date(startedAt).getTime()` (the ISO-timestamp parse supplied as
`parseDate`). Unlike `getMigration` and `getActiveMigration`, the returned
records are NOT passed through `sanitizeMigration`. -/
def getAllMigrations (parseDate : String → Int) (store : StoreSchema) :
    List MigrationState :=
  sortByDesc (fun m => parseDate m.startedAt)
    (store.migrations.map (fun p => p.2))

/-- Membership through `insertByDesc`. -/
theorem mem_insertByDesc (key : MigrationState → Int)
    (m a : MigrationState) (l : List MigrationState) :
    a ∈ insertByDesc key m l ↔ a = m ∨ a ∈ l := by
  induction l with
  | nil => simp [insertByDesc]
  | cons x xs ih =>
    rw [insertByDesc]
    split
    · simp
    · simp only [List.mem_cons, ih]
      tauto

/-- `sortByDesc` returns a list with the same members. -/
theorem mem_sortByDesc (key : MigrationState → Int) (a : MigrationState)
    (l : List MigrationState) : a ∈ sortByDesc key l ↔ a ∈ l := by
  induction l with
  | nil => simp [sortByDesc]
  | cons x xs ih =>
    rw [sortByDesc, mem_insertByDesc]
    simp [ih]

/-- C9 (amended). -/
theorem c9_auth_code_never_at_rest :
    (∀ (env : Env) (domain : String) (options : MigrationOptions)
        (contact : Option RegistrantContact),
      ∀ w ∈ writesOf (transferDomain env domain options contact).1,
        w.authCode = none) ∧
    (∀ (migration : MigrationState),
      ∀ d ∈ (sanitizeMigration migration).domains, d.authCode = none) ∧
    (∀ (store : StoreSchema) (id : String) (m : MigrationState),
      getMigration store id = some m →
      ∀ d ∈ m.domains, d.authCode = none) ∧
    (∀ (store : StoreSchema) (m : MigrationState),
      getActiveMigration store = some m →
      ∀ d ∈ m.domains, d.authCode = none) ∧
    (∀ (parseDate : String → Int) (store : StoreSchema)
        (m : MigrationState),
      m ∈ getAllMigrations parseDate store →
      ∃ p, p ∈ store.migrations ∧ p.2 = m) := by
  have hsan : ∀ (migration : MigrationState),
      ∀ d ∈ (sanitizeMigration migration).domains, d.authCode = none := by
    intro migration d hd
    rw [sanitizeMigration] at hd
    obtain ⟨d₀, _, rfl⟩ := List.mem_map.mp hd
    rfl
  have hget : ∀ (store : StoreSchema) (id : String) (m : MigrationState),
      getMigration store id = some m →
      ∀ d ∈ m.domains, d.authCode = none := by
    intro store id m hm
    rw [getMigration] at hm
    rcases hl : store.migrations.lookup id with _ | m₀ <;> rw [hl] at hm
    · simp at hm
    · obtain rfl : sanitizeMigration m₀ = m := by simpa using hm
      exact hsan m₀
  refine ⟨?_, hsan, hget, ?_, ?_⟩
  · intro env domain options contact w hw
    simp only [transferDomain] at hw
    rcases h2 : (tryBody env domain options contact).2 with e | v
    · simp only [h2, failedReport, writesOf_append, writesOf_cons_report,
        writesOf_cons_write, writesOf_nil, List.mem_append,
        List.mem_cons, List.not_mem_nil, or_false] at hw
      rcases hw with hw | hw
      · exact tryBody_writes_no_auth env domain options contact w hw
      · subst hw; rfl
    · rw [h2] at hw
      exact tryBody_writes_no_auth env domain options contact w hw
  · intro store m hm
    rw [getActiveMigration] at hm
    rcases ha : store.activeMigrationId with _ | mid
    · simp only [ha] at hm
      exact Option.noConfusion hm
    · simp only [ha] at hm
      exact hget store mid m hm
  · intro parseDate store m hm
    rw [getAllMigrations] at hm
    obtain ⟨p, hp, he⟩ :=
      List.mem_map.mp ((mem_sortByDesc _ _ _).mp hm)
    exact ⟨p, hp, he⟩

/-- One legacy-format persisted domain record, still carrying the transfer
auth code an older release wrote. -/
def legacyDomainState : DomainMigrationState :=
  { domain := "legacy.com", status := .auth_obtained,
    authCode := some "LEGACYCODE" }

/-- A persisted run containing the legacy record. -/
def legacyRun : MigrationState :=
  { id := "run0", startedAt := "2024-01-01T00:00:00Z",
    domains := [legacyDomainState] }

/-- A store holding the legacy run. -/
def legacyStore : StoreSchema :=
  { migrations := [("run0", legacyRun)], activeMigrationId := some "run0" }

/-- C9 counterexample: reading migrations from the store through
`getAllMigrations` — as the status, cleanup and resume commands do —
returns the legacy domain record with its auth code intact, while the
`getMigration` read of the same run strips it. -/
theorem c9_counterexample :
    getAllMigrations (fun _ => 0) legacyStore = [legacyRun] ∧
    legacyRun.domains.map (fun d => d.authCode) = [some "LEGACYCODE"] ∧
    getMigration legacyStore "run0" = some (sanitizeMigration legacyRun) ∧
    (sanitizeMigration legacyRun).domains.map (fun d => d.authCode) =
      [none] := by
  decide

/-- Witness for C9: the DNS-backup write of the all-success run carries no
auth code. -/
theorem c9_witness :
    ({ status := .pending, dnsRecordsBackup := some [happyRecord] } :
      StateWrite).authCode = none :=
  c9_auth_code_never_at_rest.1 happyEnv "example.com" stdOptions (some {})
    { status := .pending, dnsRecordsBackup := some [happyRecord] }
    (by decide)

/-- The sample error thrown by `failEnv`. -/
def boomError : JsError :=
  { message := "GoDaddy API error 422: boom", statusCode := some 422 }

/-- C3. -/
theorem c3_failure_recorded_and_isolated :
    (∀ (env : Env) (domain : String) (options : MigrationOptions)
        (contact : Option RegistrantContact) (e : JsError),
      (transferDomain env domain options contact).2 = .error e →
      (tryBody env domain options contact).2 = .error e ∧
      (transferDomain env domain options contact).1 =
        (tryBody env domain options contact).1 ++
          [.write (failedWrite e), failedReport e] ∧
      (failedWrite e).status = .failed ∧
      (failedWrite e).error =
        some (formatError e (detectProvider e.message) true) ∧
      DomainStatus.failed ∉
        statusesOf (tryBody env domain options contact).1) ∧
    (∀ (envOf : String → Env) (domains : List String)
        (options : MigrationOptions) (contact : Option RegistrantContact),
      (runMigrationTasks envOf domains options contact).length =
        domains.length ∧
      ∀ dm ∈ domains,
        (dm, migrationTaskResult (envOf dm) dm options contact) ∈
          runMigrationTasks envOf domains options contact) := by
  constructor
  · intro env domain options contact e hTD
    rcases h2 : (tryBody env domain options contact).2 with e' | v
    · have he : e' = e := by
        rw [transferDomain] at hTD
        simp only [h2] at hTD
        exact Except.error.inj hTD
      subst he
      refine ⟨rfl, ?_, rfl, rfl, ?_⟩
      · rw [transferDomain]
        simp only [h2]
      · have hmem := tryBody_statuses_mem env domain options contact
        have hnofail : ∀ l ∈ pipelineStatusLists, DomainStatus.failed ∉ l :=
          by decide
        exact hnofail _ hmem
    · rw [transferDomain] at hTD
      simp only [h2] at hTD
      exact Except.noConfusion hTD
  · intro envOf domains options contact
    refine ⟨List.length_map _ _, ?_⟩
    intro dm hdm
    rw [runMigrationTasks]
    exact List.mem_map.mpr ⟨dm, hdm, rfl⟩

/-- Witness for C3: the run whose unlock PATCH fails re-raises that error,
appends exactly the `failed` write carrying the provider-qualified
message, and had written no `failed` status before the catch. -/
theorem c3_witness :
    (tryBody failEnv "example.com" stdOptions (some {})).2 =
      .error boomError ∧
    (transferDomain failEnv "example.com" stdOptions (some {})).1 =
      (tryBody failEnv "example.com" stdOptions (some {})).1 ++
        [.write (failedWrite boomError), failedReport boomError] ∧
    (failedWrite boomError).status = .failed ∧
    (failedWrite boomError).error =
      some (formatError boomError
        (detectProvider boomError.message) true) ∧
    DomainStatus.failed ∉
      statusesOf (tryBody failEnv "example.com" stdOptions (some {})).1 :=
  c3_failure_recorded_and_isolated.1 failEnv "example.com" stdOptions
    (some {}) boomError (by rfl)

set_option maxHeartbeats 1000000

/-- Shape of a successful, non-dry `tryBody` run with a registrant
contact, when zone creation succeeded with a non-empty nameserver list:
the statuses walk the whole pipeline in order with no step skipped. -/
theorem tryBody_success_statuses_contact (env : Env) (domain : String)
    (options : MigrationOptions) (c : RegistrantContact)
    (zone : CfZone) (v : TransferOutcome)
    (hdry : options.dryRun = false)
    (hzone : env.createZone = .ok zone)
    (hns : zone.name_servers.getD [] ≠ [])
    (hok : (tryBody env domain options (some c)).2 = .ok v) :
    statusesOf (tryBody env domain options (some c)).1 =
      [.pending, .pending, .dns_migrated, .unlocked, .auth_obtained,
       .ns_changed, .transfer_initiated] := by
  have hzr : resolveZone env = ([], .ok zone) := by
    rw [resolveZone, hzone]
  have hlen : 0 < (zone.name_servers.getD []).length :=
    List.length_pos.mpr hns
  rcases hdns : env.getDnsRecords with e | recs
  · simp [tryBody, hdns] at hok
  rcases hprep : env.prepareForTransfer with e | u
  · simp [tryBody, hdns, hdry, hzr, hprep] at hok
  rcases hpoll : pollUnlock env.getDomainDetail 0 6 with e | b
  · simp [tryBody, hdns, hdry, hzr, hprep, hpoll] at hok
  rcases b with _ | _
  · simp [tryBody, hdns, hdry, hzr, hprep, hpoll] at hok
  rcases hauth : env.getAuthCode with e | code
  · simp [tryBody, hdns, hdry, hzr, hprep, hpoll, hauth] at hok
  rcases hup : env.updateNameservers with e | u3
  · have hstep : nsStep env (zone.name_servers.getD []) =
        ([Event.report "Updating nameservers" .auth_obtained none],
         .error e) := by
      rw [nsStep]
      simp [hlen, hup]
    simp [tryBody, hdns, hdry, hzr, hprep, hpoll, hauth, hstep] at hok
  have hstep : nsStep env (zone.name_servers.getD []) =
      ([Event.report "Updating nameservers" .auth_obtained none,
        Event.write { status := DomainStatus.ns_changed },
        Event.report "Nameservers updated" .ns_changed none],
       .ok ()) := by
    rw [nsStep]
    simp [hlen, hup]
  rcases hw : env.waitForZoneActive with e | u4
  · simp [tryBody, hdns, hdry, hzr, hprep, hpoll, hauth, hstep,
      afterNs, hw] at hok
  rcases hc : env.checkAuthCode with e | u5
  · simp [tryBody, hdns, hdry, hzr, hprep, hpoll, hauth, hstep,
      afterNs, hw, hc] at hok
  rcases hi : env.initiateTransfer with e | u6
  · simp [tryBody, hdns, hdry, hzr, hprep, hpoll, hauth, hstep,
      afterNs, hw, hc, hi] at hok
  simp [tryBody, hdns, hdry, hzr, hprep, hpoll, hauth, hstep,
    afterNs, hw, hc, hi, statusesOf, writesOf_append,
    writesOf_migrateEvents, writesOf_privacyEvents, writesOf_resolveZone,
    writesOf_cons_report, writesOf_cons_write, writesOf_nil]

/-- Shape of a successful, non-dry `tryBody` run without a registrant
contact, when zone creation succeeded with a non-empty nameserver list:
the statuses stop at `ns_changed` and the engine reports
`Ready for transfer`. -/
theorem tryBody_success_statuses_nocontact (env : Env) (domain : String)
    (options : MigrationOptions) (zone : CfZone) (v : TransferOutcome)
    (hdry : options.dryRun = false)
    (hzone : env.createZone = .ok zone)
    (hns : zone.name_servers.getD [] ≠ [])
    (hok : (tryBody env domain options none).2 = .ok v) :
    statusesOf (tryBody env domain options none).1 =
      [.pending, .pending, .dns_migrated, .unlocked, .auth_obtained,
       .ns_changed] ∧
    Event.report "Ready for transfer" .ns_changed none ∈
      (tryBody env domain options none).1 := by
  have hzr : resolveZone env = ([], .ok zone) := by
    rw [resolveZone, hzone]
  have hlen : 0 < (zone.name_servers.getD []).length :=
    List.length_pos.mpr hns
  rcases hdns : env.getDnsRecords with e | recs
  · simp [tryBody, hdns] at hok
  rcases hprep : env.prepareForTransfer with e | u
  · simp [tryBody, hdns, hdry, hzr, hprep] at hok
  rcases hpoll : pollUnlock env.getDomainDetail 0 6 with e | b
  · simp [tryBody, hdns, hdry, hzr, hprep, hpoll] at hok
  rcases b with _ | _
  · simp [tryBody, hdns, hdry, hzr, hprep, hpoll] at hok
  rcases hauth : env.getAuthCode with e | code
  · simp [tryBody, hdns, hdry, hzr, hprep, hpoll, hauth] at hok
  rcases hup : env.updateNameservers with e | u3
  · have hstep : nsStep env (zone.name_servers.getD []) =
        ([Event.report "Updating nameservers" .auth_obtained none],
         .error e) := by
      rw [nsStep]
      simp [hlen, hup]
    simp [tryBody, hdns, hdry, hzr, hprep, hpoll, hauth, hstep] at hok
  have hstep : nsStep env (zone.name_servers.getD []) =
      ([Event.report "Updating nameservers" .auth_obtained none,
        Event.write { status := DomainStatus.ns_changed },
        Event.report "Nameservers updated" .ns_changed none],
       .ok ()) := by
    rw [nsStep]
    simp [hlen, hup]
  constructor
  · simp [tryBody, hdns, hdry, hzr, hprep, hpoll, hauth, hstep,
      afterNs, statusesOf, writesOf_append, writesOf_migrateEvents,
      writesOf_privacyEvents, writesOf_resolveZone, writesOf_cons_report,
      writesOf_cons_write, writesOf_nil]
  · simp [tryBody, hdns, hdry, hzr, hprep, hpoll, hauth, hstep, afterNs]

/-- The catch only ever appends the `failed` status to the try body's
status sequence. -/
theorem transferDomain_statuses_cases (env : Env) (domain : String)
    (options : MigrationOptions) (contact : Option RegistrantContact) :
    statusesOf (transferDomain env domain options contact).1 =
      statusesOf (tryBody env domain options contact).1 ∨
    statusesOf (transferDomain env domain options contact).1 =
      statusesOf (tryBody env domain options contact).1 ++
        [DomainStatus.failed] := by
  rw [transferDomain]
  rcases h2 : (tryBody env domain options contact).2 with e | v
  · right
    simp [h2, statusesOf, writesOf_append, writesOf_cons_write,
      writesOf_cons_report, writesOf_nil, failedReport, failedWrite]
  · left
    simp [h2]

/-- A successful `transferDomain` run is exactly its try body. -/
theorem transferDomain_ok_parts (env : Env) (domain : String)
    (options : MigrationOptions) (contact : Option RegistrantContact)
    (v : TransferOutcome)
    (h : (transferDomain env domain options contact).2 = .ok v) :
    (tryBody env domain options contact).2 = .ok v ∧
    (transferDomain env domain options contact).1 =
      (tryBody env domain options contact).1 := by
  rcases h2 : (tryBody env domain options contact).2 with e | v'
  · rw [transferDomain] at h
    simp [h2] at h
  · have hv : v' = v := by
      rw [transferDomain] at h
      simp only [h2] at h
      exact Except.ok.inj h
    subst hv
    refine ⟨rfl, ?_⟩
    rw [transferDomain]
    simp only [h2]

/-- C6 (amended). -/
theorem c6_statuses_monotone_no_skip :
    (∀ (env : Env) (domain : String) (options : MigrationOptions)
        (contact : Option RegistrantContact),
      chainLe
        (((statusesOf (transferDomain env domain options contact).1).filter
          (fun s => s != DomainStatus.failed)).map pipelineRank) = true ∧
      (DomainStatus.failed ∈
          statusesOf (transferDomain env domain options contact).1 →
        ∃ l, statusesOf (transferDomain env domain options contact).1 =
            l ++ [DomainStatus.failed] ∧ DomainStatus.failed ∉ l)) ∧
    (∀ (env : Env) (domain : String) (options : MigrationOptions)
        (c : RegistrantContact) (zone : CfZone) (v : TransferOutcome),
      options.dryRun = false →
      options.migrateRecords = true →
      env.createZone = .ok zone →
      zone.name_servers.getD [] ≠ [] →
      (transferDomain env domain options (some c)).2 = .ok v →
      statusesOf (transferDomain env domain options (some c)).1 =
        [.pending, .pending, .dns_migrated, .unlocked, .auth_obtained,
         .ns_changed, .transfer_initiated] ∧
      chainSucc (collapseDups
        ((statusesOf (transferDomain env domain options (some c)).1).map
          pipelineRank)) = true) := by
  constructor
  · intro env domain options contact
    have hmem := tryBody_statuses_mem env domain options contact
    have hprops : ∀ l ∈ pipelineStatusLists,
        l.filter (fun s => s != DomainStatus.failed) = l ∧
        chainLe (l.map pipelineRank) = true ∧
        DomainStatus.failed ∉ l := by decide
    obtain ⟨hfilter, hle, hnot⟩ := hprops _ hmem
    rcases transferDomain_statuses_cases env domain options contact
      with h | h <;> rw [h]
    · exact ⟨by rw [hfilter]; exact hle, fun hf => absurd hf hnot⟩
    · constructor
      · rw [List.filter_append]
        simp only [List.filter_cons, List.filter_nil]
        norm_num
        rw [hfilter]
        exact hle
      · intro _
        exact ⟨statusesOf (tryBody env domain options contact).1, rfl, hnot⟩
  · intro env domain options c zone v hdry hmig hzone hns hok
    obtain ⟨htry, htrace⟩ :=
      transferDomain_ok_parts env domain options (some c) v hok
    have hshape := tryBody_success_statuses_contact env domain options c
      zone v hdry hzone hns htry
    rw [htrace, hshape]
    exact ⟨rfl, by decide⟩

/-- C6 counterexample: a fully successful live run with record migration
enabled in which the zone reports an empty nameserver list is a successful
run whose status sequence jumps from `auth_obtained` straight to
`transfer_initiated`, skipping `ns_changed`. -/
theorem c6_counterexample :
    stdOptions.migrateRecords = true ∧
    (transferDomain noNsEnv "example.com" stdOptions (some {})).2 =
      .ok (.finished "SECRET") ∧
    statusesOf (transferDomain noNsEnv "example.com" stdOptions
        (some {})).1 =
      [.pending, .pending, .dns_migrated, .unlocked, .auth_obtained,
       .transfer_initiated] ∧
    chainSucc (collapseDups
      ((statusesOf (transferDomain noNsEnv "example.com" stdOptions
          (some {})).1).map pipelineRank)) = false :=
  ⟨rfl, rfl, by decide, by decide⟩

/-- Witness for C6: the all-success environment walks the full pipeline
with no skipped step. -/
theorem c6_witness :
    statusesOf (transferDomain happyEnv "example.com" stdOptions
        (some {})).1 =
      [.pending, .pending, .dns_migrated, .unlocked, .auth_obtained,
       .ns_changed, .transfer_initiated] ∧
    chainSucc (collapseDups
      ((statusesOf (transferDomain happyEnv "example.com" stdOptions
          (some {})).1).map pipelineRank)) = true :=
  c6_statuses_monotone_no_skip.2 happyEnv "example.com" stdOptions {}
    happyZone (.finished "SECRET") rfl rfl rfl (by decide) rfl

/-- Without a registrant contact the try body never writes
`transfer_initiated`. -/
theorem tryBody_nocontact_no_ti (env : Env) (domain : String)
    (options : MigrationOptions) :
    DomainStatus.transfer_initiated ∉
      statusesOf (tryBody env domain options none).1 := by
  rw [tryBody]
  rcases hdns : env.getDnsRecords with e | recs
  · simp [statusesOf, writesOf]
  · by_cases hdry : options.dryRun = true
    · simp [hdry, statusesOf, writesOf]
    · rcases hz : (resolveZone env).2 with e | zone
      · simp [hdry, hz, statusesOf, writesOf_append, writesOf_resolveZone,
          writesOf_cons_report, writesOf_cons_write, writesOf_nil]
      · rcases hprep : env.prepareForTransfer with e | u
        · simp [hdry, hz, hprep, statusesOf, writesOf_append,
            writesOf_resolveZone, writesOf_migrateEvents,
            writesOf_privacyEvents, writesOf_cons_report,
            writesOf_cons_write, writesOf_nil]
        · rcases hpoll : pollUnlock env.getDomainDetail 0 6 with e | b
          · simp [hdry, hz, hprep, hpoll, statusesOf, writesOf_append,
              writesOf_resolveZone, writesOf_migrateEvents,
              writesOf_privacyEvents, writesOf_cons_report,
              writesOf_cons_write, writesOf_nil]
          · cases b
            · simp [hdry, hz, hprep, hpoll, statusesOf, writesOf_append,
                writesOf_resolveZone, writesOf_migrateEvents,
                writesOf_privacyEvents, writesOf_cons_report,
                writesOf_cons_write, writesOf_nil]
            · rcases hauth : env.getAuthCode with e | code
              · simp [hdry, hz, hprep, hpoll, hauth, statusesOf,
                  writesOf_append, writesOf_resolveZone,
                  writesOf_migrateEvents, writesOf_privacyEvents,
                  writesOf_cons_report, writesOf_cons_write, writesOf_nil]
              · rcases hns2 : (nsStep env (zone.name_servers.getD [])).2
                  with e | u2 <;>
                rcases nsStep_writes env (zone.name_servers.getD [])
                    with hns | hns <;>
                  simp [hdry, hz, hprep, hpoll, hauth, hns2, hns, afterNs,
                    statusesOf, writesOf_append, writesOf_resolveZone,
                    writesOf_migrateEvents, writesOf_privacyEvents,
                    writesOf_cons_report, writesOf_cons_write, writesOf_nil]

/-- `env` with the three transfer-phase call outcomes (zone-activation
wait, auth-code validation, transfer initiation) replaced. -/
def withTransferCalls (env : Env) (x y z : Except JsError Unit) : Env :=
  { env with
    waitForZoneActive := x,
    checkAuthCode := y,
    initiateTransfer := z }

/-- C8 (amended). -/
theorem c8_no_contact_stops_after_ns :
    (∀ (env : Env) (domain : String) (options : MigrationOptions)
        (x y z : Except JsError Unit),
      transferDomain (withTransferCalls env x y z) domain options none =
        transferDomain env domain options none) ∧
    (∀ (env : Env) (domain : String) (options : MigrationOptions),
      DomainStatus.transfer_initiated ∉
        statusesOf (transferDomain env domain options none).1) ∧
    (∀ (env : Env) (domain : String) (options : MigrationOptions)
        (zone : CfZone) (v : TransferOutcome),
      options.dryRun = false →
      env.createZone = .ok zone →
      zone.name_servers.getD [] ≠ [] →
      (transferDomain env domain options none).2 = .ok v →
      statusesOf (transferDomain env domain options none).1 =
        [.pending, .pending, .dns_migrated, .unlocked, .auth_obtained,
         .ns_changed] ∧
      (statusesOf (transferDomain env domain options none).1).getLast? =
        some .ns_changed ∧
      Event.report "Ready for transfer" .ns_changed none ∈
        (transferDomain env domain options none).1 ∧
      DomainStatus.failed ∉
        statusesOf (transferDomain env domain options none).1) := by
  refine ⟨fun env domain options x y z => rfl, ?_, ?_⟩
  · intro env domain options
    have hnoti := tryBody_nocontact_no_ti env domain options
    rcases transferDomain_statuses_cases env domain options none
      with h | h <;> rw [h]
    · exact hnoti
    · simp only [List.mem_append, List.mem_cons, List.not_mem_nil]
      rintro (hc | hc | hc)
      · exact hnoti hc
      · exact DomainStatus.noConfusion hc
      · exact hc
  · intro env domain options zone v hdry hzone hns hok
    obtain ⟨htry, htrace⟩ :=
      transferDomain_ok_parts env domain options none v hok
    obtain ⟨hshape, hready⟩ := tryBody_success_statuses_nocontact env
      domain options zone v hdry hzone hns htry
    rw [htrace, hshape]
    exact ⟨rfl, by decide, hready, by decide⟩

/-- C8 counterexample: a fully successful contact-less run in which the
zone reported an empty nameserver list ends with persisted status
`auth_obtained`, not `ns_changed`. -/
theorem c8_counterexample :
    (transferDomain noNsEnv "example.com" stdOptions none).2 =
      .ok (.finished "SECRET") ∧
    statusesOf (transferDomain noNsEnv "example.com" stdOptions none).1 =
      [.pending, .pending, .dns_migrated, .unlocked, .auth_obtained] ∧
    (statusesOf (transferDomain noNsEnv "example.com" stdOptions
        none).1).getLast? = some .auth_obtained :=
  ⟨rfl, by decide, by decide⟩

/-- Witness for C8: the all-success contact-less run stops at `ns_changed`
and reports `Ready for transfer`. -/
theorem c8_witness :
    statusesOf (transferDomain happyEnv "example.com" stdOptions none).1 =
      [.pending, .pending, .dns_migrated, .unlocked, .auth_obtained,
       .ns_changed] ∧
    (statusesOf (transferDomain happyEnv "example.com" stdOptions
        none).1).getLast? = some .ns_changed ∧
    Event.report "Ready for transfer" .ns_changed none ∈
      (transferDomain happyEnv "example.com" stdOptions none).1 ∧
    DomainStatus.failed ∉
      statusesOf (transferDomain happyEnv "example.com" stdOptions none).1 :=
  c8_no_contact_stops_after_ns.2.2 happyEnv "example.com" stdOptions
    happyZone (.finished "SECRET") rfl rfl (by decide) rfl

set_option maxHeartbeats 200000

/-- A CAA record whose flat data string does not match the strict
pattern. -/
def caaBadRec : GoDaddyDnsRecord :=
  { type := "CAA", name := "@", data := "malformed", ttl := 3600 }

/-- Witness for C7: translating a record set holding only the malformed
CAA record drops it, leaving the output empty. -/
theorem c7_witness :
    mapGoDaddyToCloudflare [caaBadRec] "example.com" false = [] := by
  have h := c7_caa_strict_parse.1 [] [] caaBadRec "example.com" false rfl
  have hp : parseCaa caaBadRec.data = none := by decide
  rw [hp] at h
  simpa [mapGoDaddyToCloudflare] using h
